import Mathlib

/-!
Verification development for the niji desktop theming utility.

The repository's checked-in sources are the CLI layer
(`crates/main/src/cli.rs`) and a secondary entry point (`src/main.rs`).
They are embedded shallowly below: each `cmd_*` Lean function mirrors the
corresponding Rust function, with calls into the engine (`NijiApp`) and
console output recorded as explicit effects, and `Option::unwrap` panics
modelled as an abnormal exit code. The engine itself (ApplyEngine,
StateStore, TemplateRenderer, ModuleRegistry) is not among the checked-in
sources; those components are modelled from the specification, and each
such definition is marked `Modelled from the spec:` in its doc comment.
-/

/-! ## Errors surfaced by the engine to the CLI -/

/-- Error values returned by engine operations, as named in the spec's
error taxonomy; the CLI only formats them via their message. -/
inductive NijiError
  | themeNotFound (name : String)
  | moduleNotFound (name : String)
  | noCurrentTheme
  | ioError (msg : String)
  | other (msg : String)
  deriving Repr, DecidableEq

/-- Rendering of an error for the log, corresponding to the CLI's
`log::error!("{err}")` in the `handle!` macro. -/
def NijiError.message : NijiError → String
  | .themeNotFound n => "theme not found: " ++ n
  | .moduleNotFound n => "module not found: " ++ n
  | .noCurrentTheme => "no current theme"
  | .ioError m => "io error: " ++ m
  | .other m => m

/-! ## Theme as seen by the CLI -/

/-- The theme value the CLI receives from the engine. `cli.rs` accesses
`theme.name` as an `Option` (it calls `.unwrap()` on it) and prints the
theme through its display form, modelled as the `display` field. -/
structure Theme where
  name : Option String
  display : String
  deriving Repr, DecidableEq

/-! ## The engine as an oracle -/

/-- Behaviour of `NijiApp` as observed by the CLI layer: one response per
operation the CLI can invoke. `NijiApp` itself is not among the checked-in
sources, so the CLI is verified parametrically in these responses. -/
structure NijiApp where
  apply : Bool → Option (List String) → Except NijiError Unit
  current_theme : Except NijiError Theme
  get_theme : String → Except NijiError Theme
  set_theme : String → Except NijiError Unit
  list_themes : List String
  unset_theme : Except NijiError Unit

/-! ## Observable effects of a CLI run -/

/-- One observable step of a CLI run: console output, an error logged by
the `handle!` macro, or a call into the engine. -/
inductive CliEffect
  | logError (msg : String)
  | println (msg : String)
  | callApply (reload : Bool) (modules : Option (List String))
  | callSetTheme (name : String)
  | callCurrentTheme
  | callGetTheme (name : String)
  | callUnsetTheme
  | debugPrint (msg : String)
  deriving Repr, DecidableEq

/-- Outcome of one process run: the effect trace and the process exit
code. A Rust `main` returning normally exits with code 0; a panic
terminates the process with code 101. -/
structure RunOutcome where
  effects : List CliEffect
  code : Nat
  deriving Repr, DecidableEq

/-- The exit code Rust's runtime reports after an uncaught panic. -/
def panicCode : Nat := 101

/-- The message logged by `cmd_theme_show` when color output is disabled
(the operation is unsupported in no-color mode). -/
def showUnsupportedMsg : String :=
  "Theme display is not supported in no-color mode."

/-- The message logged by `cmd_theme_list` when no usable theme exists. -/
def noThemesMsg : String := "No usable themes were found"

/-! ## The CLI command handlers, mirroring cli.rs -/

/-- Mirror of `cmd_apply` (cli.rs:166): forwards `!no_reload` and the
collected module filter to `NijiApp::apply`; a returned error is handled
by `handle!`, i.e. logged, and the function returns normally. -/
def cmd_apply (app : NijiApp) (no_reload : Bool) (modules : Option (List String)) :
    RunOutcome :=
  match app.apply (!no_reload) modules with
  | .ok _ => ⟨[.callApply (!no_reload) modules], 0⟩
  | .error e => ⟨[.callApply (!no_reload) modules, .logError e.message], 0⟩

/-- Mirror of `cmd_theme_get` (cli.rs:186): fetches the current theme via
`handle!`, then prints `theme.name.unwrap()` — a missing name is a panic. -/
def cmd_theme_get (app : NijiApp) : RunOutcome :=
  match app.current_theme with
  | .error e => ⟨[.callCurrentTheme, .logError e.message], 0⟩
  | .ok t =>
    match t.name with
    | none => ⟨[.callCurrentTheme], panicCode⟩
    | some n => ⟨[.callCurrentTheme, .println n], 0⟩

/-- Shared tail of `cmd_theme_show` (cli.rs:209): prints the header with
`theme.name.as_ref().unwrap()` — panicking on a missing name — then a
blank line and the theme's display form. -/
def showTheme (callEff : CliEffect) (t : Theme) : RunOutcome :=
  match t.name with
  | none => ⟨[callEff], panicCode⟩
  | some n =>
    ⟨[callEff, .println ("Theme \"" ++ n ++ "\":"), .println "", .println t.display], 0⟩

/-- Mirror of `cmd_theme_show` (cli.rs:191): under `--no-color` it logs an
error and returns before resolving any theme; otherwise it resolves the
theme by name (`get_theme`) or the current theme and prints a preview. -/
def cmd_theme_show (app : NijiApp) (name : Option String) (no_color : Bool) :
    RunOutcome :=
  if no_color then ⟨[.logError showUnsupportedMsg], 0⟩
  else
    match name with
    | some n =>
      match app.get_theme n with
      | .error e => ⟨[.callGetTheme n, .logError e.message], 0⟩
      | .ok t => showTheme (.callGetTheme n) t
    | none =>
      match app.current_theme with
      | .error e => ⟨[.callCurrentTheme, .logError e.message], 0⟩
      | .ok t => showTheme .callCurrentTheme t

/-- Mirror of `cmd_theme_set` (cli.rs:214): `handle!(app.set_theme(name))`
— on failure the error is logged and the function returns, so `apply` is
not called — then, unless `--no-apply`, `handle!(app.apply(!no_reload, None))`. -/
def cmd_theme_set (app : NijiApp) (name : String) (no_apply no_reload : Bool) :
    RunOutcome :=
  match app.set_theme name with
  | .error e => ⟨[.callSetTheme name, .logError e.message], 0⟩
  | .ok _ =>
    if no_apply then ⟨[.callSetTheme name], 0⟩
    else
      match app.apply (!no_reload) none with
      | .ok _ => ⟨[.callSetTheme name, .callApply (!no_reload) none], 0⟩
      | .error e =>
        ⟨[.callSetTheme name, .callApply (!no_reload) none, .logError e.message], 0⟩

/-- Mirror of `cmd_theme_list` (cli.rs:225): prints every listed theme
name, then logs an error if none was printed. -/
def cmd_theme_list (app : NijiApp) : RunOutcome :=
  if app.list_themes.isEmpty then
    ⟨app.list_themes.map CliEffect.println ++ [.logError noThemesMsg], 0⟩
  else ⟨app.list_themes.map CliEffect.println, 0⟩

/-- Mirror of `cmd_theme_unset` (cli.rs:238): `handle!(app.unset_theme())`. -/
def cmd_theme_unset (app : NijiApp) : RunOutcome :=
  match app.unset_theme with
  | .ok _ => ⟨[.callUnsetTheme], 0⟩
  | .error e => ⟨[.callUnsetTheme, .logError e.message], 0⟩

/-! ## The dispatch of a parsed invocation -/

/-- A parsed subcommand, as produced by the clap declaration in `run`. -/
inductive Subcommand
  | applyCmd (modules : Option (List String)) (no_reload : Bool)
  | themeGet
  | themeShow (name : Option String)
  | themeSet (name : String) (no_apply : Bool) (no_reload : Bool)
  | themeList
  | themeUnset
  deriving Repr, DecidableEq

/-- A successfully parsed invocation: the global flags and the chosen
subcommand (`subcommand_required` makes a subcommand mandatory). -/
structure Invocation where
  quiet : Bool
  verbose : Bool
  no_color : Bool
  sub : Subcommand
  deriving Repr, DecidableEq

/-- Mirror of `cmd`/`cmd_theme` dispatch (cli.rs:136,175): initialize the
app (`handle!(NijiApp::init())` — failure is logged and `run` returns),
then dispatch on the subcommand. `quiet`/`verbose`/`no_color` configure
only the logging layer, except that `cmd_theme_show` reads `no_color`. -/
def runInv (inv : Invocation) (initRes : Except NijiError NijiApp) : RunOutcome :=
  match initRes with
  | .error e => ⟨[.logError e.message], 0⟩
  | .ok app =>
    match inv.sub with
    | .applyCmd modules no_reload => cmd_apply app no_reload modules
    | .themeGet => cmd_theme_get app
    | .themeShow name => cmd_theme_show app name inv.no_color
    | .themeSet name no_apply no_reload => cmd_theme_set app name no_apply no_reload
    | .themeList => cmd_theme_list app
    | .themeUnset => cmd_theme_unset app

/-! ## Argument parsing of `theme set` -/

/-- Raw flag occurrences for `niji theme set`, before clap validation. -/
structure RawThemeSetArgs where
  name : Option String
  no_apply : Bool
  no_reload : Bool
  deriving Repr, DecidableEq

/-- A parse-time rejection by clap. -/
inductive ParseError
  | argConflict
  | missingArg
  deriving Repr, DecidableEq

/-- Mirror of the clap declaration for `theme set` (cli.rs:101): the
`no_apply` argument is declared `conflicts_with("no_reload")`, so giving
both flags is rejected during parsing; a missing theme name is modelled
as a parse failure (the handler unconditionally unwraps it). -/
def parseThemeSet (r : RawThemeSetArgs) : Except ParseError (String × Bool × Bool) :=
  if r.no_apply && r.no_reload then .error .argConflict
  else
    match r.name with
    | none => .error .missingArg
    | some n => .ok (n, r.no_apply, r.no_reload)

/-- The exit code clap uses when it rejects a command line. -/
def usageErrorCode : Nat := 2

/-- The `theme set` pipeline from raw arguments: clap either rejects the
command line (printing usage and exiting, before `cmd` ever runs and
hence before any engine call) or hands the parsed values to
`cmd_theme_set`. -/
def runThemeSetRaw (r : RawThemeSetArgs) (app : NijiApp) : RunOutcome :=
  match parseThemeSet r with
  | .error _ => ⟨[], usageErrorCode⟩
  | .ok (n, no_apply, no_reload) => cmd_theme_set app n no_apply no_reload

/-! ## Concrete app behaviours used as witnesses -/

/-- A concrete engine behaviour on which every operation succeeds. -/
def stubApp : NijiApp where
  apply := fun _ _ => .ok ()
  current_theme := .ok ⟨some "ocean", "ocean variables"⟩
  get_theme := fun n => .ok ⟨some n, n ++ " variables"⟩
  set_theme := fun _ => .ok ()
  list_themes := ["ocean"]
  unset_theme := .ok ()

/-- A behaviour whose `apply` fails with a module-resolution error. -/
def applyFailApp : NijiApp :=
  { stubApp with apply := fun _ _ => .error (.moduleNotFound "kitty") }

/-- A behaviour whose current theme carries no name. -/
def namelessApp : NijiApp :=
  { stubApp with current_theme := .ok ⟨none, "nameless"⟩ }

/-- A behaviour whose `set_theme` fails with a persistence error. -/
def setFailApp : NijiApp :=
  { stubApp with set_theme := fun _ => .error (.ioError "disk full") }

/-! ## Template renderer, modelled from the spec (section 4.3) -/

/-- Modelled from the spec: the TemplateRenderer component is not among
the checked-in sources. A template source is an alternation of literal
text and recognized variable references; unrecognized syntax is already
part of the literal segments (passed through unchanged). -/
inductive Segment
  | lit (s : String)
  | var (name : String)
  deriving Repr, DecidableEq

/-- A template source: its recognized structure. -/
abbrev Template := List Segment

/-- A theme's variable mapping, keys unique, as an association list. -/
abbrev VarMap := List (String × String)

/-- Lookup of a variable's value in the mapping. -/
def lookupVar (vars : VarMap) (n : String) : Option String :=
  match vars with
  | [] => none
  | (k, v) :: rest => if k = n then some v else lookupVar rest n

/-- A rendering failure: the template referenced an undefined variable. -/
inductive RenderError
  | undefinedVariable (name : String)
  deriving Repr, DecidableEq

/-- Modelled from the spec: `TemplateRenderer.render` substitutes each
recognized variable reference by the string form of its value, fails with
`UndefinedVariableError` on a reference absent from the mapping, and
passes literal text through. The variable mapping is threaded through the
computation and returned, so that mutation of the input mapping (were the
renderer to perform any) would be observable. -/
def renderSt : Template → VarMap → Except RenderError String × VarMap
  | [], vars => (.ok "", vars)
  | .lit s :: rest, vars =>
    let (r, vars') := renderSt rest vars
    (r.map (fun t => s ++ t), vars')
  | .var n :: rest, vars =>
    match lookupVar vars n with
    | none => (.error (.undefinedVariable n), vars)
    | some v =>
      let (r, vars') := renderSt rest vars
      (r.map (fun t => v ++ t), vars')

/-- The rendered text (or failure) of a template against a mapping. -/
def render (t : Template) (vars : VarMap) : Except RenderError String :=
  (renderSt t vars).1

/-! ## State store, modelled from the spec (section 4.4) -/

/-- Modelled from the spec: the durable locations the StateStore touches —
the state location holding the current theme name (or absence) and the
temporary file used by write-to-temporary-then-rename. -/
structure StoreState where
  stored : Option String
  temp : Option String
  deriving Repr, DecidableEq

/-- One primitive durable step of a StateStore operation; interruption
between steps models a crash mid-operation. -/
inductive StoreStep
  | writeTemp (v : String)
  | renameTemp
  | removeStored
  deriving Repr, DecidableEq

/-- Effect of one primitive step on the durable locations. `renameTemp`
is the atomic replace of the state location by the temporary file. -/
def applyStoreStep (s : StoreState) : StoreStep → StoreState
  | .writeTemp v => { s with temp := some v }
  | .renameTemp => { stored := s.temp, temp := none }
  | .removeStored => { s with stored := none }

/-- Run of a sequence of primitive steps; a crash corresponds to running
only a proper leading part of an operation's sequence. -/
def runStoreSteps (s : StoreState) : List StoreStep → StoreState
  | [] => s
  | st :: rest => runStoreSteps (applyStoreStep s st) rest

/-- Modelled from the spec: `StateStore.set` writes the new name to the
temporary location, then atomically renames it over the state location. -/
def setSteps (name : String) : List StoreStep :=
  [.writeTemp name, .renameTemp]

/-- Modelled from the spec: `StateStore.unset` removes the stored
reference in one atomic step. -/
def unsetSteps : List StoreStep := [.removeStored]

/-- The state after a completed `set(name)`. -/
def storeSet (name : String) (s : StoreState) : StoreState :=
  runStoreSteps s (setSteps name)

/-- The state after a completed `unset()`. -/
def storeUnset (s : StoreState) : StoreState :=
  runStoreSteps s unsetSteps

/-- Modelled from the spec: `StateStore.get` reads the stored reference;
absence is a valid result, not a failure. -/
def storeGet (s : StoreState) : Option String := s.stored

/-! ## Apply engine, modelled from the spec (section 4.5) -/

/-- Modelled from the spec: a ModuleDefinition — name, ordered
(template, output destination) pairs, optional reload command. Template
sources are given by their recognized content (file reads abstracted). -/
structure ModuleDefinition where
  name : String
  templates : List (Template × String)
  reload_command : Option (String × List String)
  deriving Repr, DecidableEq

/-- The per-module outcome recorded in an ApplyReport. -/
inductive ModuleOutcome
  | success
  | renderFailure (e : RenderError)
  | writeFailure (path : String)
  | reloadFailure
  deriving Repr, DecidableEq

/-- A side effect of the apply pass on the world outside the engine. -/
inductive EngineEffect
  | write (path : String) (content : String)
  | reloadCmd (moduleName : String)
  deriving Repr, DecidableEq

/-- The output filesystem: an association of paths to contents, most
recent write first. -/
abbrev FS := List (String × String)

/-- Content at a path, most recent write winning. -/
def lookupFS (fs : FS) (p : String) : Option String :=
  match fs with
  | [] => none
  | (q, c) :: rest => if q = p then some c else lookupFS rest p

/-- One atomic, durable write of a rendered output. -/
def fsWrite (fs : FS) (p c : String) : FS := (p, c) :: fs

/-- Environmental faults the engine may encounter: which output writes
fail and which reload commands fail (non-zero exit, spawn failure or
timeout). -/
structure Faults where
  writeFails : String → Bool
  reloadFails : String → Bool

/-- The fault-free environment. -/
def noFaults : Faults where
  writeFails := fun _ => false
  reloadFails := fun _ => false

/-- Modelled from the spec (step 3a): render every (template, output)
pair of a module, failing on the first render failure, so that no partial
output of the module is written. -/
def renderAll (vars : VarMap) : List (Template × String) →
    Except RenderError (List (String × String))
  | [] => .ok []
  | (t, out) :: rest =>
    match render t vars with
    | .error e => .error e
    | .ok txt =>
      match renderAll vars rest with
      | .error e => .error e
      | .ok more => .ok ((out, txt) :: more)

/-- Modelled from the spec (step 3c): write each rendered output
atomically; a write failure stops the module's writes but leaves
already-written sibling outputs in place. Returns the filesystem, the
write effects, and the first failing path if any. -/
def writeAll (faults : Faults) (fs : FS) : List (String × String) →
    FS × List EngineEffect × Option String
  | [] => (fs, [], none)
  | (p, c) :: rest =>
    if faults.writeFails p then (fs, [], some p)
    else
      let next := writeAll faults (fsWrite fs p c) rest
      (next.1, .write p c :: next.2.1, next.2.2)

/-- Modelled from the spec (step 3): process one module independently —
render all pairs, on failure record `RenderFailure` and write nothing;
otherwise write outputs atomically, then, if `reload` is set and a reload
command is defined, run it, downgrading only the outcome on its failure. -/
def applyModule (vars : VarMap) (faults : Faults) (reload : Bool) (fs : FS)
    (m : ModuleDefinition) : FS × List EngineEffect × ModuleOutcome :=
  match renderAll vars m.templates with
  | .error e => (fs, [], .renderFailure e)
  | .ok outs =>
    match writeAll faults fs outs with
    | (fs', effs, some p) => (fs', effs, .writeFailure p)
    | (fs', effs, none) =>
      if reload then
        match m.reload_command with
        | none => (fs', effs, .success)
        | some _ =>
          if faults.reloadFails m.name then (fs', effs, .reloadFailure)
          else (fs', effs ++ [.reloadCmd m.name], .success)
      else (fs', effs, .success)

/-- Modelled from the spec (steps 3–4): process each target module in
order, threading the filesystem, concatenating effects, and recording one
outcome per module — a module's failure never removes later modules from
the pass. -/
def applyModules (vars : VarMap) (faults : Faults) (reload : Bool) (fs : FS) :
    List ModuleDefinition → FS × List EngineEffect × List (String × ModuleOutcome)
  | [] => (fs, [], [])
  | m :: rest =>
    let step := applyModule vars faults reload fs m
    let next := applyModules vars faults reload step.1 rest
    (next.1, step.2.1 ++ next.2.1, (m.name, step.2.2) :: next.2.2)

/-- Lookup of a module definition by name in the registry. -/
def lookupModule (reg : List ModuleDefinition) (n : String) :
    Option ModuleDefinition :=
  match reg with
  | [] => none
  | m :: rest => if m.name = n then some m else lookupModule rest n

/-- Modelled from the spec (section 4.2): resolve an explicit filter
name-by-name against the registry, failing with `ModuleNotFound` as soon
as any requested name is absent — the resolution is atomic. -/
def resolveNames (reg : List ModuleDefinition) :
    List String → Except NijiError (List ModuleDefinition)
  | [] => .ok []
  | n :: rest =>
    match lookupModule reg n with
    | none => .error (.moduleNotFound n)
    | some m =>
      match resolveNames reg rest with
      | .error e => .error e
      | .ok ms => .ok (m :: ms)

/-- Modelled from the spec (step 2): the target module set — all active
modules when no filter is supplied, otherwise the fully resolved filter. -/
def resolveFilter (reg : List ModuleDefinition) :
    Option (List String) → Except NijiError (List ModuleDefinition)
  | none => .ok reg
  | some names => resolveNames reg names

/-- Modelled from the spec: `ApplyEngine.apply` — resolve the theme
(`NoCurrentTheme` when none is current and none supplied), resolve the
target module set (fail-fast), then process each module; resolution
failures abort before any side effect, so the filesystem is returned
unchanged and the effect trace empty on the error paths. -/
def applyRun (reg : List ModuleDefinition) (themeVars : Option VarMap)
    (faults : Faults) (reload : Bool) (filter : Option (List String)) (fs : FS) :
    FS × List EngineEffect × Except NijiError (List (String × ModuleOutcome)) :=
  match themeVars with
  | none => (fs, [], .error .noCurrentTheme)
  | some vars =>
    match resolveFilter reg filter with
    | .error e => (fs, [], .error e)
    | .ok mods =>
      let res := applyModules vars faults reload fs mods
      (res.1, res.2.1, .ok res.2.2)

/-! ## Secondary entry point, mirroring src/main.rs -/

/-- The discovery result of the secondary entry point. `Files` itself is
not among the checked-in sources beyond its use here: it exposes a debug
representation and iterators over discovered themes and modules, each
with a debug representation. -/
structure Files where
  repr : String
  themes : List String
  modules : List String
  deriving Repr, DecidableEq

/-- Mirror of `main` in src/main.rs: `Files::init().unwrap()` — an `Err`
aborts the process with a panic before any output — then `dbg!` of the
files value and of every discovered theme and module; no apply, write or
reload is performed. -/
def mainSecondary (initRes : Except String Files) : RunOutcome :=
  match initRes with
  | .error _ => ⟨[], panicCode⟩
  | .ok f =>
    ⟨.debugPrint f.repr ::
      (f.themes.map CliEffect.debugPrint ++ f.modules.map CliEffect.debugPrint), 0⟩

/-! ## Remaining definitions used in theorem statements -/

/-- The filesystem after a sequence of atomic writes, in order. -/
def writeListFS (fs : FS) : List (String × String) → FS
  | [] => fs
  | (p, c) :: rest => writeListFS (fsWrite fs p c) rest

/-- A concrete valid module: one template rendering against `sampleVars`,
with a reload command. -/
def modA : ModuleDefinition :=
  ⟨"A", [([Segment.lit "x=", Segment.var "x"], "a.conf")], some ("reload-a", [])⟩

/-- A concrete broken module: its template references a variable that
`sampleVars` does not define. -/
def modB : ModuleDefinition :=
  ⟨"B", [([Segment.var "missing"], "b.conf")], some ("reload-b", [])⟩

/-- A concrete variable mapping defining only `x`. -/
def sampleVars : VarMap := [("x", "1")]

/-! ## Helper lemmas -/

/-- In the fault-free environment, `writeAll` writes every rendered
output in order and reports no failure. -/
theorem writeAll_noFaults (outs : List (String × String)) (fs : FS) :
    writeAll noFaults fs outs =
      (writeListFS fs outs, outs.map (fun pc => EngineEffect.write pc.1 pc.2), none) := by
  induction outs generalizing fs with
  | nil => rfl
  | cons pc rest ih =>
    obtain ⟨p, c⟩ := pc
    have hf : noFaults.writeFails p = false := rfl
    simp only [writeAll, hf]
    simp [writeListFS, ih]

/-- A path that none of the writes touch keeps its previous content. -/
theorem lookupFS_writeListFS (outs : List (String × String)) (fs : FS) (p : String)
    (h : p ∉ outs.map Prod.fst) :
    lookupFS (writeListFS fs outs) p = lookupFS fs p := by
  induction outs generalizing fs with
  | nil => rfl
  | cons pc rest ih =>
    obtain ⟨q, c⟩ := pc
    simp only [List.map_cons, List.mem_cons] at h
    push_neg at h
    have hq : q ≠ p := fun hqp => h.1 hqp.symm
    rw [writeListFS, ih _ h.2, fsWrite, lookupFS, if_neg hq]

/-- Filter resolution fails with `ModuleNotFound` for some requested,
absent name whenever at least one requested name is absent. -/
theorem resolveNames_absent (reg : List ModuleDefinition) (names : List String)
    (n : String) (hmem : n ∈ names) (habs : lookupModule reg n = none) :
    ∃ n', n' ∈ names ∧ lookupModule reg n' = none ∧
      resolveNames reg names = .error (.moduleNotFound n') := by
  induction names with
  | nil => cases hmem
  | cons m rest ih =>
    cases hlook : lookupModule reg m with
    | none => exact ⟨m, List.mem_cons_self m rest, hlook, by rw [resolveNames, hlook]⟩
    | some md =>
      have hne : n ≠ m := fun hnm => by rw [hnm, hlook] at habs; cases habs
      have hrest : n ∈ rest := by
        cases List.mem_cons.mp hmem with
        | inl h => exact absurd h hne
        | inr h => exact h
      obtain ⟨n', hn'mem, hn'abs, hn'err⟩ := ih hrest
      exact ⟨n', List.mem_cons_of_mem m hn'mem, hn'abs, by rw [resolveNames, hlook, hn'err]⟩

/-- The exit code of `cmd_apply` is always 0. -/
theorem cmd_apply_code (app : NijiApp) (no_reload : Bool) (modules : Option (List String)) :
    (cmd_apply app no_reload modules).code = 0 := by
  cases h : app.apply (!no_reload) modules <;> simp [cmd_apply, h]

/-- The exit code of `cmd_theme_get` is 0 or the panic code. -/
theorem cmd_theme_get_code (app : NijiApp) :
    (cmd_theme_get app).code = 0 ∨ (cmd_theme_get app).code = panicCode := by
  cases h : app.current_theme with
  | error e => left; simp [cmd_theme_get, h]
  | ok t =>
    cases hn : t.name with
    | none => right; simp [cmd_theme_get, h, hn]
    | some n => left; simp [cmd_theme_get, h, hn]

/-- The exit code of `showTheme` is 0 or the panic code. -/
theorem showTheme_code (c : CliEffect) (t : Theme) :
    (showTheme c t).code = 0 ∨ (showTheme c t).code = panicCode := by
  cases hn : t.name with
  | none => right; simp [showTheme, hn]
  | some n => left; simp [showTheme, hn]

/-- The exit code of `cmd_theme_show` is 0 or the panic code. -/
theorem cmd_theme_show_code (app : NijiApp) (name : Option String) (nc : Bool) :
    (cmd_theme_show app name nc).code = 0 ∨
      (cmd_theme_show app name nc).code = panicCode := by
  cases nc with
  | true => left; simp [cmd_theme_show]
  | false =>
    cases name with
    | some n =>
      cases h : app.get_theme n with
      | error e => left; simp [cmd_theme_show, h]
      | ok t => simpa [cmd_theme_show, h] using showTheme_code (.callGetTheme n) t
    | none =>
      cases h : app.current_theme with
      | error e => left; simp [cmd_theme_show, h]
      | ok t => simpa [cmd_theme_show, h] using showTheme_code .callCurrentTheme t

/-- The exit code of `cmd_theme_set` is always 0. -/
theorem cmd_theme_set_code (app : NijiApp) (name : String) (no_apply no_reload : Bool) :
    (cmd_theme_set app name no_apply no_reload).code = 0 := by
  cases h : app.set_theme name with
  | error e => simp [cmd_theme_set, h]
  | ok u =>
    cases no_apply with
    | true => simp [cmd_theme_set, h]
    | false => cases h2 : app.apply (!no_reload) none <;> simp [cmd_theme_set, h, h2]

/-- The exit code of `cmd_theme_list` is always 0. -/
theorem cmd_theme_list_code (app : NijiApp) : (cmd_theme_list app).code = 0 := by
  unfold cmd_theme_list
  split <;> simp

/-- The exit code of `cmd_theme_unset` is always 0. -/
theorem cmd_theme_unset_code (app : NijiApp) : (cmd_theme_unset app).code = 0 := by
  cases h : app.unset_theme <;> simp [cmd_theme_unset, h]

/-- The renderer returns its variable mapping unchanged. -/
theorem renderSt_preserves (t : Template) (vars : VarMap) :
    (renderSt t vars).2 = vars := by
  induction t with
  | nil => rfl
  | cons seg rest ih =>
    cases seg with
    | lit s => simpa [renderSt] using ih
    | var n =>
      cases hl : lookupVar vars n with
      | none => simp [renderSt, hl]
      | some v => simpa [renderSt, hl] using ih

/-! ## Claim theorems -/

/-- Claim C1, corrected: the CLI layer never turns handled failures into a
non-zero exit status. Every handled failure — theme/module resolution,
per-module apply failures surfaced as an error from `apply`, or an
unsupported operation such as `theme show` under `--no-color` — is logged
via the `handle!` macro (or `error!`) and the command function returns, so
the process exits 0; a non-zero exit arises only from a panic. -/
theorem c1_exit_code_amended (inv : Invocation) (initRes : Except NijiError NijiApp) :
    ((runInv inv initRes).code = 0 ∨ (runInv inv initRes).code = panicCode) ∧
    (∀ app modules no_reload e, initRes = Except.ok app →
      inv.sub = .applyCmd modules no_reload →
      app.apply (!no_reload) modules = .error e →
      (runInv inv initRes).code = 0 ∧
        CliEffect.logError e.message ∈ (runInv inv initRes).effects) ∧
    (∀ app name, initRes = Except.ok app → inv.sub = .themeShow name →
      inv.no_color = true →
      (runInv inv initRes).code = 0 ∧
        CliEffect.logError showUnsupportedMsg ∈ (runInv inv initRes).effects) := by
  refine ⟨?_, ?_, ?_⟩
  · cases initRes with
    | error e => left; simp [runInv]
    | ok app =>
      cases hs : inv.sub with
      | applyCmd modules no_reload =>
        left; simpa [runInv, hs] using cmd_apply_code app no_reload modules
      | themeGet => simpa [runInv, hs] using cmd_theme_get_code app
      | themeShow name =>
        simpa [runInv, hs] using cmd_theme_show_code app name inv.no_color
      | themeSet name na nr =>
        left; simpa [runInv, hs] using cmd_theme_set_code app name na nr
      | themeList => left; simpa [runInv, hs] using cmd_theme_list_code app
      | themeUnset => left; simpa [runInv, hs] using cmd_theme_unset_code app
  · intro app modules no_reload e hinit hsub happly
    subst hinit
    constructor
    · simp [runInv, hsub, cmd_apply, happly]
    · simp [runInv, hsub, cmd_apply, happly]
  · intro app name hinit hsub hnc
    subst hinit
    constructor <;> simp [runInv, hsub, cmd_theme_show, hnc]

/-- Witness for C1 amended: a failing `apply` at a concrete invocation
still exits 0 while logging the failure. -/
theorem c1_exit_code_amended_witness :
    (runInv ⟨false, false, false, .applyCmd none false⟩ (.ok applyFailApp)).code = 0 ∧
    CliEffect.logError (NijiError.moduleNotFound "kitty").message ∈
      (runInv ⟨false, false, false, .applyCmd none false⟩ (.ok applyFailApp)).effects :=
  (c1_exit_code_amended ⟨false, false, false, .applyCmd none false⟩
      (.ok applyFailApp)).2.1 applyFailApp none false (NijiError.moduleNotFound "kitty")
    rfl rfl rfl

/-- Counterexample to C1 as stated: `theme show` under `--no-color` is an
unsupported operation and `apply` can fail module resolution, yet the
process exit status is 0 in both runs — the claim demands non-zero. -/
theorem c1_exit_code_counterexample :
    runInv ⟨false, false, true, .themeShow none⟩ (.ok stubApp) =
      ⟨[.logError showUnsupportedMsg], 0⟩ ∧
    runInv ⟨false, false, false, .applyCmd none false⟩ (.ok applyFailApp) =
      ⟨[.callApply true none,
        .logError (NijiError.moduleNotFound "kitty").message], 0⟩ :=
  ⟨rfl, rfl⟩

/-- Claim C2 (confirmed): `apply` with an explicit module filter naming an
absent module resolves the filter atomically — it returns `ModuleNotFound`
for some absent requested name, the filesystem is unchanged, and no write
and no reload effect is performed for any module. -/
theorem c2_filter_atomic (reg : List ModuleDefinition) (vars : VarMap)
    (faults : Faults) (reload : Bool) (names : List String) (fs : FS) (n : String)
    (hmem : n ∈ names) (habs : lookupModule reg n = none) :
    ∃ n', n' ∈ names ∧ lookupModule reg n' = none ∧
      applyRun reg (some vars) faults reload (some names) fs =
        (fs, [], .error (.moduleNotFound n')) := by
  obtain ⟨n', h1, h2, h3⟩ := resolveNames_absent reg names n hmem habs
  exact ⟨n', h1, h2, by simp [applyRun, resolveFilter, h3]⟩

/-- Witness for C2: registry containing only module `A`, filter requesting
`A` and the unknown `ghost`, on a non-empty prior filesystem. -/
theorem c2_filter_atomic_witness :
    ∃ n', n' ∈ ["A", "ghost"] ∧ lookupModule [modA] n' = none ∧
      applyRun [modA] (some sampleVars) noFaults true (some ["A", "ghost"])
          [("a.conf", "old")] =
        ([("a.conf", "old")], [], .error (.moduleNotFound n')) :=
  c2_filter_atomic [modA] sampleVars noFaults true ["A", "ghost"]
    [("a.conf", "old")] "ghost" (by simp) rfl

/-- Claim C3 (confirmed): in one apply pass over modules A (valid, with a
reload command) and B (whose rendering fails on an undefined variable),
A's outputs are written, A's reload command is invoked, B is reported as a
render failure, and every path outside A's outputs — in particular B's
prior output files — keeps its prior content. -/
theorem c3_module_isolation (A B : ModuleDefinition) (vars : VarMap) (fs : FS)
    (outsA : List (String × String)) (cmdA : String × List String) (eB : RenderError)
    (hA : renderAll vars A.templates = .ok outsA)
    (hcmd : A.reload_command = some cmdA)
    (hB : renderAll vars B.templates = .error eB) :
    applyRun [A, B] (some vars) noFaults true none fs =
      (writeListFS fs outsA,
       outsA.map (fun pc => EngineEffect.write pc.1 pc.2) ++ [.reloadCmd A.name],
       .ok [(A.name, .success), (B.name, .renderFailure eB)]) ∧
    ∀ p, p ∉ outsA.map Prod.fst →
      lookupFS (writeListFS fs outsA) p = lookupFS fs p := by
  constructor
  · have hr : noFaults.reloadFails A.name = false := rfl
    simp [applyRun, resolveFilter, applyModules, applyModule, hA, hB, hcmd,
      writeAll_noFaults, hr]
  · intro p hp
    exact lookupFS_writeListFS outsA fs p hp

/-- Witness for C3: the concrete modules `modA`/`modB` against
`sampleVars`, with B's prior output present on the filesystem. -/
theorem c3_module_isolation_witness :
    applyRun [modA, modB] (some sampleVars) noFaults true none [("b.conf", "old")] =
      (writeListFS [("b.conf", "old")] [("a.conf", "x=1")],
       [("a.conf", "x=1")].map (fun pc => EngineEffect.write pc.1 pc.2) ++
         [.reloadCmd modA.name],
       .ok [(modA.name, .success),
            (modB.name, .renderFailure (.undefinedVariable "missing"))]) :=
  (c3_module_isolation modA modB sampleVars [("b.conf", "old")] [("a.conf", "x=1")]
    ("reload-a", []) (.undefinedVariable "missing") rfl rfl rfl).1

/-- Claim C4 (confirmed): `set(X)` then `get()` returns `X`; `unset()`
then `get()` returns absence; `get` on an absent value returns absence
rather than failing; and an interrupted `set` or `unset` — any proper
leading part of its primitive steps — leaves the prior stored value
intact, because only the final atomic rename touches the state location. -/
theorem c4_statestore_roundtrip_atomic (x : String) (s : StoreState) :
    storeGet (storeSet x s) = some x ∧
    storeGet (storeUnset s) = none ∧
    storeGet ⟨none, s.temp⟩ = none ∧
    storeGet (runStoreSteps s [StoreStep.writeTemp x]) = storeGet s ∧
    storeGet (runStoreSteps s []) = storeGet s :=
  ⟨rfl, rfl, rfl, rfl, rfl⟩

/-- Claim C5 (confirmed): rendering is deterministic — syntactically equal
(template, variables) inputs give equal results — and the variable
mapping threaded through the renderer comes back unchanged. -/
theorem c5_render_deterministic_pure (t : Template) (v w : VarMap) (h : v = w) :
    renderSt t v = renderSt t w ∧ (renderSt t v).2 = v :=
  ⟨by rw [h], renderSt_preserves t v⟩

/-- Witness for C5 at a concrete template and mapping. -/
theorem c5_render_deterministic_pure_witness :
    renderSt [Segment.var "x"] sampleVars = renderSt [Segment.var "x"] sampleVars ∧
    (renderSt [Segment.var "x"] sampleVars).2 = sampleVars :=
  c5_render_deterministic_pure [Segment.var "x"] sampleVars sampleVars rfl

/-- Claim C6 (confirmed): `theme set` first calls the engine's set-theme
operation; if it fails, the error is logged and `apply` is not called;
if it succeeds, `apply` is called with reload `!no_reload` unless
`--no-apply` was given. -/
theorem c6_theme_set_sequence (app : NijiApp) (name : String) (no_apply no_reload : Bool) :
    (cmd_theme_set app name no_apply no_reload).effects.head? =
      some (.callSetTheme name) ∧
    (∀ e, app.set_theme name = .error e →
      cmd_theme_set app name no_apply no_reload =
        ⟨[.callSetTheme name, .logError e.message], 0⟩) ∧
    (app.set_theme name = .ok () → no_apply = true →
      cmd_theme_set app name no_apply no_reload = ⟨[.callSetTheme name], 0⟩) ∧
    (app.set_theme name = .ok () → no_apply = false →
      CliEffect.callApply (!no_reload) none ∈
        (cmd_theme_set app name no_apply no_reload).effects) := by
  refine ⟨?_, ?_, ?_, ?_⟩
  · cases h : app.set_theme name with
    | error e => simp [cmd_theme_set, h]
    | ok u =>
      cases no_apply with
      | true => simp [cmd_theme_set, h]
      | false => cases h2 : app.apply (!no_reload) none <;> simp [cmd_theme_set, h, h2]
  · intro e he
    simp [cmd_theme_set, he]
  · intro hok hna
    subst hna
    simp [cmd_theme_set, hok]
  · intro hok hna
    subst hna
    cases h2 : app.apply (!no_reload) none <;> simp [cmd_theme_set, hok, h2]

/-- Witness for C6: a successful set on the stub engine is followed by a
call to apply with reload enabled. -/
theorem c6_theme_set_sequence_witness :
    CliEffect.callApply (!false) none ∈ (cmd_theme_set stubApp "ocean" false false).effects :=
  (c6_theme_set_sequence stubApp "ocean" false false).2.2.2 rfl rfl

/-- Claim C7 (confirmed): `theme show` under `--no-color` logs that the
operation is unsupported and returns with exit code 0, performing no
engine call at all — in particular no theme resolution and no preview. -/
theorem c7_show_no_color_unsupported (app : NijiApp) (name : Option String) :
    cmd_theme_show app name true = ⟨[.logError showUnsupportedMsg], 0⟩ := rfl

/-- Claim C8 (confirmed): whenever the engine hands the CLI a current
theme whose name is absent, both `theme get` and `theme show` (without an
explicit name) terminate with the panic exit code — the `unwrap` on
`theme.name` — instead of a reported error. -/
theorem c8_nameless_theme_panics (app : NijiApp) (t : Theme)
    (hcur : app.current_theme = .ok t) (hname : t.name = none) :
    (cmd_theme_get app).code = panicCode ∧
    (cmd_theme_show app none false).code = panicCode := by
  constructor
  · simp [cmd_theme_get, hcur, hname]
  · simp [cmd_theme_show, showTheme, hcur, hname]

/-- Witness for C8: the concrete engine behaviour returning a nameless
theme makes both commands panic. -/
theorem c8_nameless_theme_panics_witness :
    (cmd_theme_get namelessApp).code = panicCode ∧
    (cmd_theme_show namelessApp none false).code = panicCode :=
  c8_nameless_theme_panics namelessApp ⟨none, "nameless"⟩ rfl rfl

/-- Claim C9 (confirmed): giving both `--no-apply` and `--no-reload` to
`theme set` is rejected by argument parsing — the declared conflict —
so the run ends with clap's usage-error exit and no engine call occurs. -/
theorem c9_set_flags_conflict (r : RawThemeSetArgs) (app : NijiApp)
    (h1 : r.no_apply = true) (h2 : r.no_reload = true) :
    parseThemeSet r = .error .argConflict ∧
    runThemeSetRaw r app = ⟨[], usageErrorCode⟩ := by
  have hp : parseThemeSet r = .error .argConflict := by
    simp [parseThemeSet, h1, h2]
  exact ⟨hp, by simp [runThemeSetRaw, hp]⟩

/-- Witness for C9 at a concrete command line. -/
theorem c9_set_flags_conflict_witness :
    parseThemeSet ⟨some "ocean", true, true⟩ = .error .argConflict ∧
    runThemeSetRaw ⟨some "ocean", true, true⟩ stubApp = ⟨[], usageErrorCode⟩ :=
  c9_set_flags_conflict ⟨some "ocean", true, true⟩ stubApp rfl rfl

/-- Claim C10 (confirmed): the secondary entry point panics — aborting the
process with the panic exit code and no output — when `Files::init` fails,
and on success only debug-prints the discovered themes and modules; its
effect trace contains no apply call. -/
theorem c10_secondary_main (e : String) (f : Files) :
    mainSecondary (.error e) = ⟨[], panicCode⟩ ∧
    (mainSecondary (.ok f)).code = 0 ∧
    (mainSecondary (.ok f)).effects =
      .debugPrint f.repr ::
        (f.themes.map CliEffect.debugPrint ++ f.modules.map CliEffect.debugPrint) ∧
    ∀ r m, CliEffect.callApply r m ∉ (mainSecondary (.ok f)).effects := by
  refine ⟨rfl, rfl, rfl, ?_⟩
  intro r m hmem
  simp [mainSecondary] at hmem
